import Mathlib

/-!
Verification of the model-resolution gateway.

Shallow embedding of:
- `gateway/src/backends/model_registry.py` (class `ModelRegistry`): a cache of
  upstream model identifiers with TTL-based refresh, candidate resolution and a
  404-triggered re-resolution helper;
- `gateway/src/main.py` (`chat_completions`): the request router's resolve step
  and its buffered dispatch with a single 404-driven retry;
- `gateway/src/backends/vllm_client.py` (`VLLMBackend.stream_openai_sse`): the
  streaming relay.

Modelling conventions: decoded JSON values are the inductive `JVal` (numbers are
integers; floats do not occur in the claims under study).  Python truthiness is
`JVal.truthy` / `optTruthy`.  Network effects are oracles: an upstream fetch of
`/v1/models` is an element of `Except Unit (List String)` (exception or list of
ids), upstream POST responses are explicit `UpResp` arguments, and the clock is
an explicit `Nat` argument.  Python code that can raise `AttributeError` or
`TypeError` on unexpected JSON shapes is translated to `Except Unit`-valued
functions; code that catches all exceptions is translated to a total function.
-/

/-- A decoded JSON value, as produced by `response.json()`. Objects are
association lists (Python dicts have unique keys; lookup takes the first
binding). -/
inductive JVal where
  | null
  | bool (b : Bool)
  | num (n : Int)
  | str (s : String)
  | arr (elems : List JVal)
  | obj (fields : List (String × JVal))

/-- Python truthiness of a decoded JSON value. -/
def JVal.truthy : JVal → Bool
  | .null => false
  | .bool b => b
  | .num n => decide (n ≠ 0)
  | .str s => decide (s ≠ "")
  | .arr elems => !elems.isEmpty
  | .obj fields => !fields.isEmpty

/-- `d.get(key)` on a decoded JSON object: `none` when the key is missing. -/
def jlookup : List (String × JVal) → String → Option JVal
  | [], _ => none
  | (k, v) :: rest, key => if k = key then some v else jlookup rest key

/-- Python truthiness of an optional string (`None` and `""` are falsy). -/
def optTruthy : Option String → Bool
  | none => false
  | some s => decide (s ≠ "")

/-- Python's `needle in hay` on strings (substring containment). -/
def strContains (hay needle : String) : Bool :=
  (List.range (hay.data.length + 1)).any fun i =>
    decide ((hay.data.drop i).take needle.data.length = needle.data)

/-- Python's `str.lower()` as a character-wise lowercase map. -/
def strLower (s : String) : String :=
  String.mk (s.data.map Char.toLower)

/-- The mutable cache of `ModelRegistry`: `self._models` and
`self._last_fetch`. -/
structure RegState where
  models : List String
  lastFetch : Nat
deriving DecidableEq

/-- Registry configuration: `ttl_sec` and `retries` (times as naturals). -/
structure RegConfig where
  ttlSec : Nat
  retries : Nat
deriving DecidableEq

/-- `ModelRegistry._is_fresh`: `ttl_sec <= 0` is never fresh, otherwise the
age of the last successful fetch must be below the TTL. -/
def isFresh (cfg : RegConfig) (now : Nat) (s : RegState) : Bool :=
  if cfg.ttlSec ≤ 0 then false else decide (now - s.lastFetch < cfg.ttlSec)

/-- The fetch loop body of `ModelRegistry.refresh`: each list element is the
outcome of one `_fetch_models` attempt (`Except.error` = raised exception).
A successful attempt returns at once, storing the ids only when non-empty
(`if ids:`); a failed attempt falls through to the next one.  The second
component counts the attempts actually made. -/
def attemptLoop : List (Except Unit (List String)) → Nat → RegState → RegState × Nat
  | [], _, s => (s, 0)
  | Except.ok ids :: _, now, s =>
      ((if ids = [] then s else { models := ids, lastFetch := now }), 1)
  | Except.error _ :: rest, now, s =>
      let p := attemptLoop rest now s
      (p.1, p.2 + 1)

/-- `ModelRegistry.refresh(client, force)`.  With `force = false` a fresh cache
short-circuits (the pre-lock check and the post-lock re-check evaluate the same
predicate on an unchanged state in this sequential embedding; the concurrent
behaviour of the gate is modelled separately below).  The attempt budget is
`max 1 (retries if force else 1)`.  All attempt failures are swallowed, so the
translation is a total function. -/
def refresh (cfg : RegConfig) (force : Bool) (outcomes : List (Except Unit (List String)))
    (now : Nat) (s : RegState) : RegState × Nat :=
  if !force && isFresh cfg now s then (s, 0)
  else attemptLoop (outcomes.take (max 1 (if force then cfg.retries else 1))) now s

/-- The ordered candidate list built by `ModelRegistry.resolve_model`:
`requested` when truthy, then `default_model` when truthy. -/
def candidatesOf (requested default_model : Option String) : List String :=
  (if optTruthy requested then [requested.getD ""] else []) ++
  (if optTruthy default_model then [default_model.getD ""] else [])

/-- The `for c in candidates: if c in models: return c` loop of
`resolve_model`: the first candidate that is an exact member of `models`. -/
def firstMemberOf (models : List String) : List String → Option String
  | [] => none
  | c :: rest => if c ∈ models then some c else firstMemberOf models rest

/-- The resolution logic of `ModelRegistry.resolve_model` applied to a cache
snapshot (the part after the internal `refresh(force=False)` call): first
candidate contained in the snapshot, else the snapshot's head, else
`requested` / `default_model` / `""` by truthiness. -/
def resolveFromSnapshot (requested default_model : Option String) (models : List String) : String :=
  match firstMemberOf models (candidatesOf requested default_model) with
  | some c => c
  | none =>
    match models with
    | m :: _ => m
    | [] =>
      if optTruthy requested then requested.getD ""
      else if optTruthy default_model then default_model.getD ""
      else ""

/-- `ModelRegistry.resolve_model`: a non-forced refresh (its fetch outcomes and
clock are the oracle arguments) followed by resolution over the refreshed
snapshot.  Returns the resolved string and the registry state after the
internal refresh. -/
def resolve_model (cfg : RegConfig) (requested default_model : Option String)
    (outcomes : List (Except Unit (List String))) (now : Nat) (s : RegState) :
    String × RegState :=
  let s1 := (refresh cfg false outcomes now s).1
  (resolveFromSnapshot requested default_model s1.models, s1)

/-- The `err = resp_json.get("error") or {}` step of
`_is_model_not_found_404` followed by using `err` as a dict: a falsy value
becomes the empty dict, a truthy dict is used as is, and `err.get` raises
(`Except.error ()`) on a truthy non-dict. -/
def pyErrDict (errVal : JVal) : Except Unit (List (String × JVal)) :=
  if errVal.truthy then
    match errVal with
    | JVal.obj fs => Except.ok fs
    | _ => Except.error ()
  else Except.ok []

/-- The `msg = (err.get("message") or "").lower()` step of
`_is_model_not_found_404`: a falsy value becomes `""`, a truthy string is
lowercased, and `.lower()` raises (`Except.error ()`) on a truthy
non-string. -/
def pyMsgLower (msgVal : JVal) : Except Unit String :=
  if msgVal.truthy then
    match msgVal with
    | JVal.str s => Except.ok (strLower s)
    | _ => Except.error ()
  else Except.ok ""

/-- The `code == 404` disjunct of `_is_model_not_found_404` (Python `==`
holds only for the integer 404). -/
def codeIs404 (err : List (String × JVal)) : Bool :=
  match jlookup err "code" with
  | some (JVal.num n) => decide (n = 404)
  | _ => false

/-- The two message-substring disjuncts of `_is_model_not_found_404`, applied
to the already lowercased message. -/
def msgSignal (msg : String) : Bool :=
  strContains msg "does not exist" || strContains msg "not found"

/-- `ModelRegistry._is_model_not_found_404`.  Faithful to the Python body,
including its dynamic-typing failure modes: `resp_json.get` raises when the
argument is not a dict; `err.get` raises when the `error` member is truthy but
not a dict; `.lower()` raises when the `message` member is truthy but not a
string.  `Except.error ()` stands for such a raised exception. -/
def is_model_not_found_404 (resp_json : JVal) : Except Unit Bool :=
  match resp_json with
  | JVal.obj fields =>
    match pyErrDict ((jlookup fields "error").getD JVal.null) with
    | Except.error e => Except.error e
    | Except.ok err =>
      match pyMsgLower ((jlookup err "message").getD JVal.null) with
      | Except.error e => Except.error e
      | Except.ok msg => Except.ok (codeIs404 err || msgSignal msg)
  | _ => Except.error ()

/-- The `resp_json or {}` coercion at the call site of
`_is_model_not_found_404`: `None` and falsy values become the empty dict. -/
def orEmptyObj (resp_json : Option JVal) : JVal :=
  match resp_json with
  | some j => if j.truthy then j else JVal.obj []
  | none => JVal.obj []

/-- `ModelRegistry.maybe_retry_on_model_404`.  `forcedOutcomes` / `tForce` feed
the forced refresh, `resolveOutcomes` / `tResolve` feed the non-forced refresh
inside the subsequent `resolve_model` call.  The result carries the replacement
model (or `none`) together with the final registry state; `Except.error ()` is
an exception propagated out of the signal check. -/
def maybe_retry_on_model_404 (cfg : RegConfig) (resp_status : Nat) (resp_json : Option JVal)
    (requested default_model : Option String)
    (forcedOutcomes resolveOutcomes : List (Except Unit (List String)))
    (tForce tResolve : Nat) (s : RegState) : Except Unit (Option String × RegState) :=
  if resp_status ≠ 404 then
    Except.ok (none, s)
  else
    match is_model_not_found_404 (orEmptyObj resp_json) with
    | Except.error e => Except.error e
    | Except.ok signal =>
      if !signal then
        Except.ok (none, s)
      else
        let s1 := (refresh cfg true forcedOutcomes tForce s).1
        let r := resolve_model cfg requested default_model resolveOutcomes tResolve s1
        Except.ok ((if r.1 = "" then none else some r.1), r.2)

/-- `ModelRegistry._fetch_models`, the extraction step applied to the decoded
body of `GET /v1/models`: the `id` values of the dict elements of `data` that
have an `id` key.  Iterating a dict yields its (string) keys and iterating a
string yields characters, so those cases produce `[]`; iterating
`null`/`bool`/`num` raises `TypeError`, and `.get` on a non-dict body raises
`AttributeError` (both `Except.error ()`). -/
def extract_model_ids (body : JVal) : Except Unit (List JVal) :=
  match body with
  | JVal.obj fields =>
    match jlookup fields "data" with
    | none => Except.ok []
    | some (JVal.arr elems) =>
        Except.ok (elems.filterMap fun m =>
          match m with
          | JVal.obj mf => jlookup mf "id"
          | _ => none)
    | some (JVal.obj _) => Except.ok []
    | some (JVal.str _) => Except.ok []
    | some _ => Except.error ()
  | _ => Except.error ()

/-- An upstream HTTP response as the router sees it: status code and decoded
JSON body (`none` when `r.json()` raises, mirroring the `try/except` around
it). -/
structure UpResp where
  status : Nat
  body : Option JVal

/-- The buffered (non-streaming) tail of `chat_completions` in
`gateway/src/main.py` (lines 147-181): one POST, then — exactly when the first
status is 404 — a `maybe_retry_on_model_404` consultation and at most one more
POST when it yields a truthy model different from the payload's current one.
`payloadModel` is `payload.get("model")` at the time of the first POST (after
the resolve step), `requested` is the inbound `payload.get("model")` read
before resolution, `resp1`/`resp2` are the upstream's responses to the first
and (potential) second POST.  Returns the model field of each POST issued, in
order, and the response the handler returns; `Except.error ()` is an exception
propagated out of the retry helper. -/
def bufferedDispatch (cfg : RegConfig) (payloadModel requested default_model : Option String)
    (s : RegState) (resp1 resp2 : UpResp)
    (forcedOutcomes resolveOutcomes : List (Except Unit (List String)))
    (tForce tResolve : Nat) : Except Unit (List (Option String) × UpResp) :=
  if resp1.status = 404 then
    match maybe_retry_on_model_404 cfg resp1.status resp1.body requested default_model
        forcedOutcomes resolveOutcomes tForce tResolve s with
    | Except.error e => Except.error e
    | Except.ok (newModel, _) =>
      match newModel with
      | some m =>
          if decide (m ≠ "") && decide (some m ≠ payloadModel) then
            Except.ok ([payloadModel, some m], resp2)
          else
            Except.ok ([payloadModel], resp1)
      | none => Except.ok ([payloadModel], resp1)
  else Except.ok ([payloadModel], resp1)

/-- The resolve step of `chat_completions` (lines 97-102): set
`payload["model"]` to the resolved string when truthy, else
`payload.setdefault("model", default_model)`.  The value is the payload's
model field after the step (`none` = the field is absent). -/
def resolveStep (payloadModel : Option String) (default_model : String) (models : List String) :
    Option String :=
  let resolved := resolveFromSnapshot payloadModel (some default_model) models
  if resolved ≠ "" then some resolved
  else
    match payloadModel with
    | some v => some v
    | none => some default_model

/-- `VLLMBackend.stream_openai_sse`: the upstream transport's byte chunks are
the oracle (each chunk a list of bytes).  `raise_for_status` turns a non-2xx
response into an exception; on success every truthy (non-empty) chunk is
yielded unchanged, in order. -/
def stream_openai_sse (status : Nat) (chunks : List (List Nat)) :
    Except Unit (List (List Nat)) :=
  if 200 ≤ status ∧ status < 300 then
    Except.ok (chunks.filter fun c => decide (c ≠ []))
  else Except.error ()

/-- The program counter of one caller executing `refresh(force=True)` in the
interleaving model: `start` = before acquiring `self._lock` (the pre-lock
freshness check is skipped because `force` is true), `locked` = holding the
lock (the post-lock re-check is also skipped for a forced call), `done` =
returned. -/
inductive RPc where
  | start
  | locked
  | done
deriving DecidableEq

/-- Global state of `n` concurrent `refresh(force=True)` callers sharing one
registry: who holds `self._lock`, each caller's program counter, the total
number of `_fetch_models` calls issued so far, and the cache. -/
structure ConcState (n : Nat) where
  lock : Option (Fin n)
  pcs : Fin n → RPc
  fetchCount : Nat
  reg : RegState

/-- One scheduler step giving caller `i` a turn.  A `start` caller acquires the
free lock or stays blocked.  A `locked` caller performs its fetch (assumed to
succeed with ids `fetched`, the "absent failures" hypothesis of the claim),
stores the result when non-empty, releases the lock and returns; a forced
caller reads no shared state before this critical section, so the fetch,
store and release are one atomic step. -/
def rstep {n : Nat} (fetched : List String) (now : Nat) (σ : ConcState n) (i : Fin n) :
    ConcState n :=
  match σ.pcs i with
  | RPc.start =>
    match σ.lock with
    | none => { σ with lock := some i, pcs := Function.update σ.pcs i RPc.locked }
    | some _ => σ
  | RPc.locked =>
    if σ.lock = some i then
      { lock := none,
        pcs := Function.update σ.pcs i RPc.done,
        fetchCount := σ.fetchCount + 1,
        reg := if fetched = [] then σ.reg else { models := fetched, lastFetch := now } }
    else σ
  | RPc.done => σ

/-- Run a schedule (a list of caller indices, each entry one turn). -/
def rrun {n : Nat} (fetched : List String) (now : Nat) (init : ConcState n)
    (sched : List (Fin n)) : ConcState n :=
  sched.foldl (rstep fetched now) init

/-- Initial state: lock free, every caller about to enter `refresh(force=True)`,
no upstream call issued yet. -/
def rinit (n : Nat) (s0 : RegState) : ConcState n :=
  { lock := none, pcs := fun _ => RPc.start, fetchCount := 0, reg := s0 }

lemma optTruthy_true {o : Option String} (h : optTruthy o = true) :
    ∃ s, o = some s ∧ s ≠ "" := by
  cases o with
  | none => simp [optTruthy] at h
  | some s => exact ⟨s, rfl, by simpa [optTruthy] using h⟩

lemma firstMemberOf_nil (l : List String) : firstMemberOf [] l = none := by
  induction l with
  | nil => rfl
  | cons c rest ih => simpa [firstMemberOf] using ih

lemma firstMemberOf_mem {models l : List String} {c : String}
    (h : firstMemberOf models l = some c) : c ∈ l ∧ c ∈ models := by
  induction l with
  | nil => simp [firstMemberOf] at h
  | cons a rest ih =>
    by_cases ha : a ∈ models
    · simp [firstMemberOf, ha] at h
      subst h
      exact ⟨List.mem_cons_self a rest, ha⟩
    · simp [firstMemberOf, ha] at h
      obtain ⟨h1, h2⟩ := ih h
      exact ⟨List.mem_cons_of_mem a h1, h2⟩

lemma candidatesOf_mem {c : String} {r d : Option String} (h : c ∈ candidatesOf r d) :
    (r = some c ∨ d = some c) ∧ c ≠ "" := by
  unfold candidatesOf at h
  rcases List.mem_append.mp h with h1 | h1
  · by_cases hr : optTruthy r = true
    · obtain ⟨s, rfl, hs⟩ := optTruthy_true hr
      simp [hr] at h1
      subst h1
      exact ⟨Or.inl rfl, hs⟩
    · simp [hr] at h1
  · by_cases hd : optTruthy d = true
    · obtain ⟨s, rfl, hs⟩ := optTruthy_true hd
      simp [hd] at h1
      subst h1
      exact ⟨Or.inr rfl, hs⟩
    · simp [hd] at h1

/-- C1: `resolveModel`, applied to a cache snapshot, returns the first
candidate from the ordered list `[requested (if present), default (if
present)]` that is an exact member of the snapshot; when no candidate is a
member and the snapshot is non-empty it returns the snapshot's first element;
when the snapshot is empty it returns `requested` if present, else `default`
if present, else the empty string — including the claim's six concrete
resolution-priority examples. -/
theorem resolve_model_priority :
    (∀ requested default_model models c,
        firstMemberOf models (candidatesOf requested default_model) = some c →
        resolveFromSnapshot requested default_model models = c) ∧
    (∀ requested default_model m rest,
        firstMemberOf (m :: rest) (candidatesOf requested default_model) = none →
        resolveFromSnapshot requested default_model (m :: rest) = m) ∧
    (∀ requested default_model,
        resolveFromSnapshot requested default_model [] =
          (if optTruthy requested then requested.getD ""
           else if optTruthy default_model then default_model.getD "" else "")) ∧
    resolveFromSnapshot (some "B") (some "A") ["A", "B"] = "B" ∧
    resolveFromSnapshot (some "C") (some "A") ["A", "B"] = "A" ∧
    resolveFromSnapshot (some "C") (some "D") ["A", "B"] = "A" ∧
    resolveFromSnapshot (some "C") (some "D") [] = "C" ∧
    resolveFromSnapshot none (some "D") [] = "D" ∧
    resolveFromSnapshot none none [] = "" := by
  refine ⟨?_, ?_, ?_, by decide, by decide, by decide, by decide, by decide, by decide⟩
  · intro r d models c h
    unfold resolveFromSnapshot
    rw [h]
  · intro r d m rest h
    unfold resolveFromSnapshot
    rw [h]
  · intro r d
    unfold resolveFromSnapshot
    rw [firstMemberOf_nil]

/-- Witness for C1: the theorem's first clause applied at a concrete input. -/
theorem resolve_model_priority_witness :
    resolveFromSnapshot (some "B") (some "A") ["A", "B"] = "B" :=
  resolve_model_priority.1 (some "B") (some "A") ["A", "B"] "B" (by decide)

/-- C9 counterexample: a cache snapshot can contain the empty string (the
upstream may list an id `""`, which the fetch stores since the listing is
non-empty).  With snapshot `[""]` and no candidates, `resolveModel` returns
the empty string even though the snapshot is non-empty, refuting the claimed
equivalence "empty result exactly when the snapshot is empty and both
candidates absent". -/
theorem resolve_empty_result_counterexample :
    resolveFromSnapshot none none [""] = "" ∧ ([""] : List String) ≠ [] :=
  ⟨by decide, by decide⟩

/-- C9 (amended): the resolved value is the requested string, the default
string, an element of the snapshot, or the empty string; and it is the empty
string exactly when no candidate is an exact member of the snapshot and
either the snapshot's first element is the empty string, or the snapshot is
empty and both requested and default are absent (None or empty). -/
theorem resolve_result_range (requested default_model : Option String) (models : List String) :
    (resolveFromSnapshot requested default_model models = "" ∨
     requested = some (resolveFromSnapshot requested default_model models) ∨
     default_model = some (resolveFromSnapshot requested default_model models) ∨
     resolveFromSnapshot requested default_model models ∈ models) ∧
    (resolveFromSnapshot requested default_model models = "" ↔
      (firstMemberOf models (candidatesOf requested default_model) = none ∧
       (models.head? = some "" ∨
        (models = [] ∧ optTruthy requested = false ∧ optTruthy default_model = false)))) := by
  unfold resolveFromSnapshot
  cases hfind : firstMemberOf models (candidatesOf requested default_model) with
  | some c =>
    obtain ⟨hc_cand, hc_mem⟩ := firstMemberOf_mem hfind
    obtain ⟨hor, hne⟩ := candidatesOf_mem hc_cand
    constructor
    · rcases hor with h | h
      · exact Or.inr (Or.inl h)
      · exact Or.inr (Or.inr (Or.inl h))
    · simp [hne]
  | none =>
    cases models with
    | cons m rest =>
      constructor
      · exact Or.inr (Or.inr (Or.inr (List.mem_cons_self m rest)))
      · simp
    | nil =>
      by_cases hr : optTruthy requested = true
      · obtain ⟨s, hs, hsne⟩ := optTruthy_true hr
        constructor
        · subst hs
          simp [hr]
        · simp [hs, optTruthy, hsne]
      · by_cases hd : optTruthy default_model = true
        · obtain ⟨s, hs, hsne⟩ := optTruthy_true hd
          constructor
          · subst hs
            simp [hr, hd]
          · rw [if_neg hr]
            simp [hs, optTruthy, hsne]
        · constructor
          · exact Or.inl (by simp [hr, hd])
          · simp [hr, hd]

/-- C8 counterexample: when resolution yields the empty string (empty
snapshot, no inbound model, configured default equal to `""`), a payload that
arrived without a model field leaves the Resolve step with a model field set
to `""` (the `setdefault` branch), not with the field still absent as the
claim states. -/
theorem resolve_step_counterexample :
    resolveStep none "" [] = some "" ∧ some "" ≠ (none : Option String) :=
  ⟨by decide, by decide⟩

/-- C8 (amended): if the resolved model string is non-empty then the payload's
model field is set to it; otherwise the step performs
`payload.setdefault("model", default)`: a payload that arrived with a model
field keeps its original value, and a payload that arrived without one gains
a model field equal to the configured default. -/
theorem resolve_step_behavior (payloadModel : Option String) (default_model : String)
    (models : List String) :
    (resolveFromSnapshot payloadModel (some default_model) models ≠ "" →
       resolveStep payloadModel default_model models =
         some (resolveFromSnapshot payloadModel (some default_model) models)) ∧
    (∀ v, payloadModel = some v →
       resolveFromSnapshot payloadModel (some default_model) models = "" →
       resolveStep payloadModel default_model models = some v) ∧
    (payloadModel = none →
       resolveFromSnapshot payloadModel (some default_model) models = "" →
       resolveStep payloadModel default_model models = some default_model) := by
  refine ⟨?_, ?_, ?_⟩
  · intro h
    simp [resolveStep, h]
  · intro v hv h
    subst hv
    simp [resolveStep, h]
  · intro hv h
    subst hv
    simp [resolveStep, h]

/-- Witness for C8's amended theorem: non-empty resolution overwrites the
model field. -/
theorem resolve_step_behavior_witness :
    resolveStep (some "A") "D" [] = some "A" :=
  (resolve_step_behavior (some "A") "D" []).1 (by decide)

/-- C7: on a 2xx upstream response the streaming relay yields exactly the
non-empty chunks, in order and unmodified — a sublist of the input in which
every element is non-empty, with nothing fabricated. -/
theorem stream_relay_passthrough (status : Nat) (chunks : List (List Nat))
    (h1 : 200 ≤ status) (h2 : status < 300) :
    stream_openai_sse status chunks = Except.ok (chunks.filter fun c => decide (c ≠ [])) ∧
    (chunks.filter fun c => decide (c ≠ [])).Sublist chunks ∧
    (∀ c ∈ chunks.filter fun c => decide (c ≠ []), c ≠ []) := by
  refine ⟨by simp [stream_openai_sse, h1, h2], List.filter_sublist chunks, ?_⟩
  intro c hc
  simpa using List.of_mem_filter hc

/-- Witness for C7 at a concrete chunk sequence. -/
theorem stream_relay_passthrough_witness :
    stream_openai_sse 200 [[1], [], [2]] = Except.ok [[1], [2]] := by
  have h := (stream_relay_passthrough 200 [[1], [], [2]] (by decide) (by decide)).1
  rw [h]
  rfl

/-- The element-wise extraction of `_fetch_models`'s list comprehension:
the `id` value of a dict element that has one, `none` otherwise. -/
def model_id_of : JVal → Option JVal
  | JVal.obj mf => jlookup mf "id"
  | _ => none

/-- C10: when the fetched body is a JSON object, the extraction returns
exactly the `id` values of the dict elements of its `data` array (in order,
non-dict elements and dicts without an `id` key silently skipped), and a body
with no `data` key yields the empty list rather than an error. -/
theorem fetch_models_extraction (fields : List (String × JVal)) :
    (jlookup fields "data" = none → extract_model_ids (JVal.obj fields) = Except.ok []) ∧
    (∀ elems, jlookup fields "data" = some (JVal.arr elems) →
       extract_model_ids (JVal.obj fields) = Except.ok (elems.filterMap model_id_of)) := by
  constructor
  · intro h
    simp [extract_model_ids, h]
  · intro elems h
    simp only [extract_model_ids, h]
    rfl

/-- Witness for C10 at a concrete body. -/
theorem fetch_models_extraction_witness :
    extract_model_ids (JVal.obj
        [("object", JVal.str "list"),
         ("data", JVal.arr [JVal.obj [("id", JVal.str "A")], JVal.str "x",
                            JVal.obj [("name", JVal.str "B")]])]) =
      Except.ok [JVal.str "A"] :=
  (fetch_models_extraction
      [("object", JVal.str "list"),
       ("data", JVal.arr [JVal.obj [("id", JVal.str "A")], JVal.str "x",
                          JVal.obj [("name", JVal.str "B")]])]).2
    [JVal.obj [("id", JVal.str "A")], JVal.str "x", JVal.obj [("name", JVal.str "B")]] rfl

lemma attemptLoop_all_errors (l : List (Except Unit (List String))) (now : Nat) (s : RegState)
    (h : ∀ o ∈ l, o = Except.error ()) : attemptLoop l now s = (s, l.length) := by
  induction l with
  | nil => rfl
  | cons e es ih =>
    have he := h e (List.mem_cons_self e es)
    subst he
    simp [attemptLoop, ih (fun o ho => h o (List.mem_cons_of_mem _ ho))]

lemma attemptLoop_errors_then_ok (errs rest : List (Except Unit (List String)))
    (ids : List String) (now : Nat) (s : RegState)
    (h : ∀ o ∈ errs, o = Except.error ()) :
    attemptLoop (errs ++ Except.ok ids :: rest) now s =
      ((if ids = [] then s else ⟨ids, now⟩), errs.length + 1) := by
  induction errs with
  | nil => simp [attemptLoop]
  | cons e es ih =>
    have he := h e (List.mem_cons_self e es)
    subst he
    have ih2 := ih (fun o ho => h o (List.mem_cons_of_mem _ ho))
    simp [attemptLoop, ih2]

/-- C4 counterexample: a forced refresh whose first attempt successfully
fetches an empty listing leaves the cache (`["A"]`, stamped 0) untouched
instead of replacing it with `[]` at time 100 as the claim requires; the
retry loop does stop after that one attempt. -/
theorem refresh_empty_fetch_counterexample :
    refresh ⟨60, 3⟩ true [Except.ok []] 100 ⟨["A"], 0⟩ = (⟨["A"], 0⟩, 1) ∧
    (⟨["A"], 0⟩ : RegState) ≠ ⟨[], 100⟩ :=
  ⟨by decide, by decide⟩

/-- C4 (amended): any successful fetch attempt ends the retry loop
immediately — after any number of failed attempts, the attempt count is that
prefix plus one and the remaining budget is never consumed; a successful
non-empty listing replaces `cachedIds` wholesale and updates `lastFetchTime`,
while a successful empty listing leaves both exactly as they were (but still
stops the loop).  The second clause instantiates this for a forced refresh
whose first attempt succeeds. -/
theorem refresh_success_stops (errs rest : List (Except Unit (List String)))
    (ids : List String) (now : Nat) (s : RegState)
    (h : ∀ o ∈ errs, o = Except.error ()) :
    attemptLoop (errs ++ Except.ok ids :: rest) now s =
      ((if ids = [] then s else ⟨ids, now⟩), errs.length + 1) ∧
    (∀ cfg : RegConfig, refresh cfg true (Except.ok ids :: rest) now s =
      ((if ids = [] then s else ⟨ids, now⟩), 1)) := by
  refine ⟨attemptLoop_errors_then_ok errs rest ids now s h, ?_⟩
  intro cfg
  have hpos : 0 < max 1 cfg.retries := le_max_left 1 cfg.retries
  obtain ⟨k, hk⟩ : ∃ k, max 1 cfg.retries = k + 1 := ⟨max 1 cfg.retries - 1, by omega⟩
  simp only [refresh, Bool.not_true, Bool.false_and, if_true, hk]
  simp [List.take_succ_cons, attemptLoop]

/-- Witness for C4's amended theorem: one failure, then a successful
non-empty fetch; two attempts, wholesale replacement. -/
theorem refresh_success_stops_witness :
    attemptLoop [Except.error (), Except.ok ["X"], Except.error ()] 5 ⟨["A"], 0⟩ =
      (⟨["X"], 5⟩, 2) := by
  have h := (refresh_success_stops [Except.error ()] [Except.error ()] ["X"] 5 ⟨["A"], 0⟩
    (by simp)).1
  simpa using h

/-- C6: `refresh` is a total function (the translation of a method that
catches every fetch exception), and when every fetch attempt fails it leaves
the registry state — `cachedIds` and `lastFetchTime` — exactly as it was. -/
theorem refresh_total_failure_preserves (cfg : RegConfig) (force : Bool)
    (outcomes : List (Except Unit (List String))) (now : Nat) (s : RegState)
    (h : ∀ o ∈ outcomes, o = Except.error ()) :
    (refresh cfg force outcomes now s).1 = s := by
  unfold refresh
  split
  · rfl
  · rw [attemptLoop_all_errors _ now s (fun o ho => h o (List.take_subset _ _ ho))]

/-- Witness for C6: two failed attempts under a forced refresh leave the
cache untouched. -/
theorem refresh_total_failure_preserves_witness :
    (refresh ⟨60, 3⟩ true [Except.error (), Except.error ()] 7 ⟨["A"], 1⟩).1 = ⟨["A"], 1⟩ :=
  refresh_total_failure_preserves ⟨60, 3⟩ true [Except.error (), Except.error ()] 7 ⟨["A"], 1⟩
    (by simp)

/-- The message disjunct of the claim's signal definition, as a function of
the looked-up `message` member: a string message containing one of the
needles after lowercasing. -/
def specMsgOf : Option JVal → Bool
  | some (JVal.str m) => msgSignal (strLower m)
  | _ => false

/-- The claim's definition of the model-not-found signal, written from the
spec's words: the body carries an error object whose code equals 404, or
whose message contains (case-insensitively) "does not exist" or
"not found". -/
def modelNotFoundSignalSpec (body : JVal) : Bool :=
  match body with
  | JVal.obj fields =>
    match jlookup fields "error" with
    | some (JVal.obj efields) =>
        codeIs404 efields || specMsgOf (jlookup efields "message")
    | _ => false
  | _ => false

lemma msgSignal_empty : msgSignal "" = false := by decide

lemma strLower_empty : strLower "" = "" := by decide

lemma pyMsgLower_ok (ov : Option JVal) (msg : String)
    (h : pyMsgLower (ov.getD JVal.null) = Except.ok msg) :
    msgSignal msg = specMsgOf ov := by
  cases ov with
  | none =>
    simp [pyMsgLower, JVal.truthy] at h
    simp [← h, specMsgOf, msgSignal_empty]
  | some v =>
    simp only [Option.getD] at h
    cases v with
    | null =>
      simp [pyMsgLower, JVal.truthy] at h
      simp [← h, specMsgOf, msgSignal_empty]
    | bool x =>
      cases x with
      | false =>
        simp [pyMsgLower, JVal.truthy] at h
        simp [← h, specMsgOf, msgSignal_empty]
      | true => simp [pyMsgLower, JVal.truthy] at h
    | num n =>
      by_cases hn : n = 0
      · simp [pyMsgLower, JVal.truthy, hn] at h
        simp [← h, specMsgOf, msgSignal_empty]
      · simp [pyMsgLower, JVal.truthy, hn] at h
    | str s =>
      by_cases hs : s = ""
      · simp [pyMsgLower, JVal.truthy, hs] at h
        simp [← h, specMsgOf, hs, strLower_empty, msgSignal_empty]
      · simp [pyMsgLower, JVal.truthy, hs] at h
        simp [← h, specMsgOf]
    | arr l =>
      cases l with
      | nil =>
        simp [pyMsgLower, JVal.truthy] at h
        simp [← h, specMsgOf, msgSignal_empty]
      | cons x xs => simp [pyMsgLower, JVal.truthy] at h
    | obj l =>
      cases l with
      | nil =>
        simp [pyMsgLower, JVal.truthy] at h
        simp [← h, specMsgOf, msgSignal_empty]
      | cons x xs => simp [pyMsgLower, JVal.truthy] at h

lemma inner_signal_agrees (efields : List (String × JVal)) (b : Bool)
    (h : (match pyMsgLower ((jlookup efields "message").getD JVal.null) with
          | Except.error e => Except.error e
          | Except.ok msg => Except.ok (codeIs404 efields || msgSignal msg))
         = Except.ok b) :
    b = (codeIs404 efields || specMsgOf (jlookup efields "message")) := by
  cases hm : pyMsgLower ((jlookup efields "message").getD JVal.null) with
  | error e => rw [hm] at h; cases h
  | ok msg =>
    rw [hm] at h
    cases h
    rw [pyMsgLower_ok (jlookup efields "message") msg hm]

lemma is_model_agrees (body : JVal) (b : Bool)
    (h : is_model_not_found_404 body = Except.ok b) :
    b = modelNotFoundSignalSpec body := by
  cases body with
  | null => exact absurd h (by simp [is_model_not_found_404])
  | bool x => exact absurd h (by simp [is_model_not_found_404])
  | num n => exact absurd h (by simp [is_model_not_found_404])
  | str s => exact absurd h (by simp [is_model_not_found_404])
  | arr l => exact absurd h (by simp [is_model_not_found_404])
  | obj fields =>
    simp only [is_model_not_found_404] at h
    simp only [modelNotFoundSignalSpec]
    cases herr : jlookup fields "error" with
    | none =>
      rw [herr] at h
      simp only [Option.getD, pyErrDict, JVal.truthy, Bool.false_eq_true, if_neg] at h
      have hb := inner_signal_agrees [] b (by simpa using h)
      simpa [codeIs404, jlookup, specMsgOf] using hb
    | some v =>
      rw [herr] at h
      simp only [Option.getD] at h
      cases v with
      | null =>
        simp only [pyErrDict, JVal.truthy, Bool.false_eq_true, if_neg] at h
        have hb := inner_signal_agrees [] b (by simpa using h)
        simpa [codeIs404, jlookup, specMsgOf] using hb
      | bool x =>
        cases x with
        | true => simp [pyErrDict, JVal.truthy] at h
        | false =>
          simp only [pyErrDict, JVal.truthy, Bool.false_eq_true, if_neg] at h
          have hb := inner_signal_agrees [] b (by simpa using h)
          simpa [codeIs404, jlookup, specMsgOf] using hb
      | num n =>
        by_cases hn : n = 0
        · simp only [pyErrDict, JVal.truthy, hn] at h
          have hb := inner_signal_agrees [] b (by simpa using h)
          simpa [codeIs404, jlookup, specMsgOf] using hb
        · simp [pyErrDict, JVal.truthy, hn] at h
      | str s =>
        by_cases hs : s = ""
        · simp only [pyErrDict, JVal.truthy, hs] at h
          have hb := inner_signal_agrees [] b (by simpa using h)
          simpa [codeIs404, jlookup, specMsgOf] using hb
        · simp [pyErrDict, JVal.truthy, hs] at h
      | arr l =>
        cases l with
        | nil =>
          simp only [pyErrDict, JVal.truthy] at h
          have hb := inner_signal_agrees [] b (by simpa using h)
          simpa [codeIs404, jlookup, specMsgOf] using hb
        | cons x xs => simp [pyErrDict, JVal.truthy] at h
      | obj efields =>
        cases efields with
        | nil =>
          simp only [pyErrDict, JVal.truthy] at h
          have hb := inner_signal_agrees [] b (by simpa using h)
          simpa [codeIs404, jlookup, specMsgOf] using hb
        | cons x xs =>
          simp only [pyErrDict, JVal.truthy] at h
          exact inner_signal_agrees (x :: xs) b (by simpa using h)

/-- C5 counterexample: for a 404 whose body is `{"error": "not found"}` the
claim requires `none` (no error *object*, hence no signal), but the code
evaluates `err.get("code")` on the string `"not found"` and raises an
`AttributeError`, which propagates to the caller instead of `none` being
returned. -/
theorem maybe_retry_malformed_counterexample :
    maybe_retry_on_model_404 ⟨60, 3⟩ 404
        (some (JVal.obj [("error", JVal.str "not found")])) (some "M") (some "D")
        [] [] 0 0 ⟨[], 0⟩ = Except.error () ∧
    modelNotFoundSignalSpec (JVal.obj [("error", JVal.str "not found")]) = false ∧
    (Except.error () : Except Unit (Option String × RegState)) ≠ Except.ok (none, ⟨[], 0⟩) :=
  ⟨rfl, rfl, by simp⟩

/-- C5 (amended): `maybeRetryOn404` returns `none` whenever the status is not
404; for a 404 whose body the signal check classifies as carrying no
model-not-found signal it returns `none`; when the signal is present it
forces a TTL-bypassing refresh with the full retry budget, re-runs
`resolveModel(requested, default)` over the refreshed state, and returns that
result, or `none` if the re-resolution yields the empty string.  Whenever the
signal check returns at all, its verdict coincides with the claim's
definition of the signal (error object with code 404 or message containing
"does not exist" / "not found" case-insensitively); however, on a 404 body
whose `error` member is truthy but not an object, or whose error object's
`message` member is truthy but not a string, the check raises and the
exception propagates to the caller instead of `none` being returned. -/
theorem maybe_retry_behavior (cfg : RegConfig) (resp_status : Nat) (resp_json : Option JVal)
    (requested default_model : Option String)
    (fo ro : List (Except Unit (List String))) (tF tR : Nat) (s : RegState) :
    (resp_status ≠ 404 →
       maybe_retry_on_model_404 cfg resp_status resp_json requested default_model fo ro tF tR s
         = Except.ok (none, s)) ∧
    (resp_status = 404 →
       is_model_not_found_404 (orEmptyObj resp_json) = Except.ok false →
       maybe_retry_on_model_404 cfg resp_status resp_json requested default_model fo ro tF tR s
         = Except.ok (none, s)) ∧
    (resp_status = 404 →
       is_model_not_found_404 (orEmptyObj resp_json) = Except.ok true →
       maybe_retry_on_model_404 cfg resp_status resp_json requested default_model fo ro tF tR s
         = Except.ok
             ((if (resolve_model cfg requested default_model ro tR
                     (refresh cfg true fo tF s).1).1 = ""
               then none
               else some (resolve_model cfg requested default_model ro tR
                     (refresh cfg true fo tF s).1).1),
              (resolve_model cfg requested default_model ro tR
                     (refresh cfg true fo tF s).1).2)) ∧
    (resp_status = 404 →
       is_model_not_found_404 (orEmptyObj resp_json) = Except.error () →
       maybe_retry_on_model_404 cfg resp_status resp_json requested default_model fo ro tF tR s
         = Except.error ()) ∧
    (∀ body b, is_model_not_found_404 body = Except.ok b →
       b = modelNotFoundSignalSpec body) := by
  refine ⟨?_, ?_, ?_, ?_, fun body b hb => is_model_agrees body b hb⟩
  · intro h
    simp [maybe_retry_on_model_404, h]
  · intro h404 hsig
    simp [maybe_retry_on_model_404, h404, hsig]
  · intro h404 hsig
    simp [maybe_retry_on_model_404, h404, hsig]
  · intro h404 hsig
    simp [maybe_retry_on_model_404, h404, hsig]

/-- Witness for C5's amended theorem: a non-404 status yields `none` with the
state untouched. -/
theorem maybe_retry_behavior_witness :
    maybe_retry_on_model_404 ⟨60, 3⟩ 500 none (some "M") (some "D") [] [] 0 0 ⟨["A"], 1⟩
      = Except.ok (none, ⟨["A"], 1⟩) :=
  (maybe_retry_behavior ⟨60, 3⟩ 500 none (some "M") (some "D") [] [] 0 0 ⟨["A"], 1⟩).1
    (by decide)

/-- C2 counterexample: a first response with status 404 and decodable body
`{"error": "not found"}` makes the retry helper raise (see C5), so the
handler issues no second POST and propagates the exception — the last
response received (the 404) is not what is returned, contrary to the claim.
-/
theorem buffered_retry_counterexample :
    bufferedDispatch ⟨60, 3⟩ (some "M") (some "M") (some "D") ⟨[], 0⟩
        ⟨404, some (JVal.obj [("error", JVal.str "not found")])⟩ ⟨200, none⟩
        [] [] 0 0 = Except.error () ∧
    (Except.error () : Except Unit (List (Option String) × UpResp)) ≠
      Except.ok ([some "M"],
        ⟨404, some (JVal.obj [("error", JVal.str "not found")])⟩) :=
  ⟨rfl, by simp⟩

/-- C2 (amended): on the buffered path the router issues at most two upstream
POSTs, the first always with the payload's current model; when the handler
returns a response, a second POST was issued exactly when the first status
was 404 and the retry helper returned a non-empty model different from the
one just tried (the payload's model is updated to it first), and the response
returned is the last one received; a non-404 first response is returned
directly after one POST; when the retry helper raises (it can, on malformed
404 error bodies — see C5), the first status was 404, exactly one POST was
issued, and the exception propagates instead of a response. -/
theorem buffered_retry_behavior (cfg : RegConfig)
    (payloadModel requested default_model : Option String) (s : RegState)
    (resp1 resp2 : UpResp) (fo ro : List (Except Unit (List String))) (tF tR : Nat) :
    (∀ posts final,
       bufferedDispatch cfg payloadModel requested default_model s resp1 resp2 fo ro tF tR
         = Except.ok (posts, final) →
       posts.length ≤ 2 ∧ posts.head? = some payloadModel ∧
       ((posts = [payloadModel] ∧ final = resp1) ∨
        (∃ m, posts = [payloadModel, some m] ∧ final = resp2 ∧ resp1.status = 404 ∧
           m ≠ "" ∧ some m ≠ payloadModel ∧
           (∃ s2, maybe_retry_on_model_404 cfg resp1.status resp1.body requested
               default_model fo ro tF tR s = Except.ok (some m, s2))))) ∧
    (resp1.status ≠ 404 →
       bufferedDispatch cfg payloadModel requested default_model s resp1 resp2 fo ro tF tR
         = Except.ok ([payloadModel], resp1)) ∧
    (∀ m s2, resp1.status = 404 →
       maybe_retry_on_model_404 cfg resp1.status resp1.body requested default_model
         fo ro tF tR s = Except.ok (some m, s2) →
       m ≠ "" → some m ≠ payloadModel →
       bufferedDispatch cfg payloadModel requested default_model s resp1 resp2 fo ro tF tR
         = Except.ok ([payloadModel, some m], resp2)) ∧
    (∀ e, bufferedDispatch cfg payloadModel requested default_model s resp1 resp2 fo ro tF tR
         = Except.error e →
       resp1.status = 404 ∧
       maybe_retry_on_model_404 cfg resp1.status resp1.body requested default_model
         fo ro tF tR s = Except.error e) := by
  refine ⟨?_, ?_, ?_, ?_⟩
  · intro posts final hok
    by_cases h404 : resp1.status = 404
    · rw [bufferedDispatch, if_pos h404] at hok
      cases hmr : maybe_retry_on_model_404 cfg resp1.status resp1.body requested
          default_model fo ro tF tR s with
      | error e => rw [hmr] at hok; cases hok
      | ok pr =>
        rw [hmr] at hok
        obtain ⟨newModel, s2⟩ := pr
        cases newModel with
        | none =>
          simp only at hok
          cases hok
          exact ⟨by simp, by simp, Or.inl ⟨rfl, rfl⟩⟩
        | some m =>
          simp only at hok
          by_cases hguard : (decide (m ≠ "") && decide (some m ≠ payloadModel)) = true
          · rw [if_pos hguard] at hok
            cases hok
            simp only [Bool.and_eq_true, decide_eq_true_eq] at hguard
            exact ⟨by simp, by simp,
              Or.inr ⟨m, rfl, rfl, h404, hguard.1, hguard.2, s2, rfl⟩⟩
          · rw [if_neg hguard] at hok
            cases hok
            exact ⟨by simp, by simp, Or.inl ⟨rfl, rfl⟩⟩
    · rw [bufferedDispatch, if_neg h404] at hok
      cases hok
      exact ⟨by simp, by simp, Or.inl ⟨rfl, rfl⟩⟩
  · intro h404
    rw [bufferedDispatch, if_neg h404]
  · intro m s2 h404 hmr hm hne
    rw [bufferedDispatch, if_pos h404, hmr]
    simp only
    rw [if_pos]
    simp [hm, hne]
  · intro e herr
    by_cases h404 : resp1.status = 404
    · rw [bufferedDispatch, if_pos h404] at herr
      cases hmr : maybe_retry_on_model_404 cfg resp1.status resp1.body requested
          default_model fo ro tF tR s with
      | error e2 =>
        rw [hmr] at herr
        cases herr
        exact ⟨h404, rfl⟩
      | ok pr =>
        rw [hmr] at herr
        obtain ⟨newModel, s2⟩ := pr
        cases newModel with
        | none => simp only at herr; cases herr
        | some m =>
          simp only at herr
          by_cases hguard : (decide (m ≠ "") && decide (some m ≠ payloadModel)) = true
          · rw [if_pos hguard] at herr; cases herr
          · rw [if_neg hguard] at herr; cases herr
    · rw [bufferedDispatch, if_neg h404] at herr
      cases herr

/-- Witness for C2's amended theorem: a 200 first response is returned after
a single POST. -/
theorem buffered_retry_behavior_witness :
    bufferedDispatch ⟨60, 3⟩ (some "M") (some "M") (some "D") ⟨[], 0⟩
        ⟨200, none⟩ ⟨200, none⟩ [] [] 0 0 = Except.ok ([some "M"], ⟨200, none⟩) :=
  (buffered_retry_behavior ⟨60, 3⟩ (some "M") (some "M") (some "D") ⟨[], 0⟩
      ⟨200, none⟩ ⟨200, none⟩ [] [] 0 0).2.1 (by decide)

/-- Number of callers that have completed their forced refresh. -/
def doneCount {n : Nat} (σ : ConcState n) : Nat :=
  (Finset.univ.filter fun i => σ.pcs i = RPc.done).card

/-- Invariant of the interleaving model: the number of `_fetch_models` calls
equals the number of completed callers, and only the lock holder is inside
the critical section. -/
def ConcInv {n : Nat} (σ : ConcState n) : Prop :=
  σ.fetchCount = doneCount σ ∧ ∀ i, σ.pcs i = RPc.locked → σ.lock = some i

lemma filter_update_done {n : Nat} (pcs : Fin n → RPc) (i : Fin n) (h : pcs i ≠ RPc.done) :
    (Finset.univ.filter fun j => Function.update pcs i RPc.done j = RPc.done).card
      = (Finset.univ.filter fun j => pcs j = RPc.done).card + 1 := by
  have hset : (Finset.univ.filter fun j => Function.update pcs i RPc.done j = RPc.done)
      = insert i (Finset.univ.filter fun j => pcs j = RPc.done) := by
    ext j
    by_cases hj : j = i
    · subst hj
      simp [Function.update_same]
    · simp [Function.update_noteq hj, hj]
  rw [hset, Finset.card_insert_of_not_mem]
  simp [h]

lemma filter_update_locked {n : Nat} (pcs : Fin n → RPc) (i : Fin n) (h : pcs i ≠ RPc.done) :
    (Finset.univ.filter fun j => Function.update pcs i RPc.locked j = RPc.done)
      = Finset.univ.filter fun j => pcs j = RPc.done := by
  ext j
  by_cases hj : j = i
  · subst hj
    simp [Function.update_same, h]
  · simp [Function.update_noteq hj]

lemma rstep_inv {n : Nat} (fetched : List String) (now : Nat) (σ : ConcState n) (i : Fin n)
    (h : ConcInv σ) : ConcInv (rstep fetched now σ i) := by
  obtain ⟨hcount, hlock⟩ := h
  unfold rstep
  cases hpc : σ.pcs i with
  | start =>
    cases hl : σ.lock with
    | none =>
      constructor
      · simpa [doneCount, filter_update_locked σ.pcs i (by simp [hpc])] using hcount
      · intro j hj
        simp only at hj
        by_cases hji : j = i
        · subst hji
          simp
        · rw [Function.update_noteq hji] at hj
          have := hlock j hj
          rw [hl] at this
          cases this
    | some k => exact ⟨hcount, hlock⟩
  | locked =>
    have hli : σ.lock = some i := hlock i hpc
    rw [if_pos hli]
    constructor
    · simp only [doneCount]
      rw [filter_update_done σ.pcs i (by simp [hpc])]
      exact congrArg (fun x => x + 1) hcount
    · intro j hj
      simp only at hj
      by_cases hji : j = i
      · subst hji
        rw [Function.update_same] at hj
        cases hj
      · rw [Function.update_noteq hji] at hj
        have := hlock j hj
        rw [hli] at this
        cases this
        exact absurd rfl hji
  | done => exact ⟨hcount, hlock⟩

lemma rrun_inv {n : Nat} (fetched : List String) (now : Nat) (init : ConcState n)
    (sched : List (Fin n)) (h : ConcInv init) :
    ConcInv (rrun fetched now init sched) := by
  induction sched generalizing init with
  | nil => exact h
  | cons i rest ih => exact ih (rstep fetched now init i) (rstep_inv fetched now init i h)

lemma rinit_inv (n : Nat) (s0 : RegState) : ConcInv (rinit n s0) := by
  constructor
  · simp [rinit, doneCount]
  · intro i hi
    simp [rinit] at hi

/-- C3 (amended): N concurrent `refresh(force=true)` callers are serialized
by the refresh gate, but each performs its own upstream fetch once it
acquires the gate (both freshness checks are skipped when forced): any
complete schedule issues exactly N upstream `/v1/models` calls (absent
failures), not one.  Deduplication via the post-acquire freshness re-check
applies only to non-forced refreshes. -/
theorem forced_refresh_fetch_count (n : Nat) (fetched : List String) (now : Nat)
    (s0 : RegState) (sched : List (Fin n))
    (hdone : ∀ i, (rrun fetched now (rinit n s0) sched).pcs i = RPc.done) :
    (rrun fetched now (rinit n s0) sched).fetchCount = n := by
  have hinv := rrun_inv fetched now (rinit n s0) sched (rinit_inv n s0)
  rw [hinv.1]
  unfold doneCount
  rw [Finset.filter_true_of_mem (fun i _ => hdone i)]
  simp

/-- Witness for C3's amended theorem: two forced callers, run to completion
one after the other, issue two fetches. -/
theorem forced_refresh_fetch_count_witness :
    (rrun ["m"] 1 (rinit 2 ⟨[], 0⟩) [0, 0, 1, 1]).fetchCount = 2 :=
  forced_refresh_fetch_count 2 ["m"] 1 ⟨[], 0⟩ [0, 0, 1, 1] (by decide)

/-- C3 counterexample: two concurrent `refresh(force=true)` calls, the second
arriving (and blocking on the gate) before the first completes, both run to
completion — and the total number of upstream fetches is 2, not the claimed
exactly one. -/
theorem forced_refresh_dedup_counterexample :
    (rrun ["m"] 1 (rinit 2 ⟨[], 0⟩) [0, 1, 0, 1, 1]).pcs 0 = RPc.done ∧
    (rrun ["m"] 1 (rinit 2 ⟨[], 0⟩) [0, 1, 0, 1, 1]).pcs 1 = RPc.done ∧
    (rrun ["m"] 1 (rinit 2 ⟨[], 0⟩) [0, 1, 0, 1, 1]).fetchCount = 2 ∧ (2 : Nat) ≠ 1 :=
  ⟨by decide, by decide, by decide, by decide⟩

/-- Witness for C9's amended theorem: the range clause at a concrete input. -/
theorem resolve_result_range_witness :
    resolveFromSnapshot (some "A") none ["A"] = "" ∨
    (some "A" : Option String) = some (resolveFromSnapshot (some "A") none ["A"]) ∨
    (none : Option String) = some (resolveFromSnapshot (some "A") none ["A"]) ∨
    resolveFromSnapshot (some "A") none ["A"] ∈ ["A"] :=
  (resolve_result_range (some "A") none ["A"]).1
